import Mathlib

/-!
Verification development for the yfinance-api Go client.

The definitions below are a shallow embedding of the repository's source:
response payload types from the type declarations, the module-merge
extractors and the historical-data transform from ticker_utils.go, the
post-decode logic of the public fetch entry points from ticker.go, and the
session bootstrap (getClient / getCrumb / getCookie) as an interleaved
transition system.

Modelling conventions:
  - Go pointers to structs become Option; the Go zero value of a struct
    becomes an explicit empty record.
  - float64 payloads are modelled as exact rationals (Rat): the code only
    copies these values and order-compares them, never performs rounding
    arithmetic, so the embedding is faithful for every claim considered.
  - Go maps (string keys) are modelled as association lists where an
    assignment to an existing key replaces the stored value in place;
    entry count and key membership coincide with the Go map semantics.
  - The HTTP transport and URL construction are outside the core under
    verification; each fetch entry point is embedded as the function from
    the decoded response (plus the ticker symbol) to the Go pair of
    (return value, error), with the error as an Option String.
-/

/-- A reported metric with raw numeric and human-readable representations
(types.go, PriceValue). -/
structure PriceValue where
  Raw : Rat
  Fmt : String
  LongFmt : String
  deriving DecidableEq

/-- Key metadata about a ticker (types.go, YahooTickerInfo). -/
structure YahooTickerInfo where
  MaxAge : Int
  PreMarketChange : Option PriceValue
  PreMarketPrice : Option PriceValue
  PreMarketSource : String
  PostMarketChangePercent : Option PriceValue
  PostMarketChange : Option PriceValue
  PostMarketTime : Int
  PostMarketPrice : Option PriceValue
  PostMarketSource : String
  RegularMarketChangePercent : Option PriceValue
  RegularMarketChange : Option PriceValue
  RegularMarketTime : Int
  PriceHint : Option PriceValue
  RegularMarketPrice : Option PriceValue
  RegularMarketDayHigh : Option PriceValue
  RegularMarketDayLow : Option PriceValue
  RegularMarketVolume : Option PriceValue
  AverageDailyVolume10Day : Option PriceValue
  AverageDailyVolume3Month : Option PriceValue
  RegularMarketPreviousClose : Option PriceValue
  RegularMarketSource : String
  RegularMarketOpen : Option PriceValue
  StrikePrice : Option PriceValue
  OpenInterest : Option PriceValue
  Exchange : String
  ExchangeName : String
  ExchangeDataDelayedBy : Int
  MarketState : String
  QuoteType : String
  Symbol : String
  UnderlyingSymbol : Option String
  ShortName : String
  LongName : String
  Currency : String
  QuoteSourceName : String
  CurrencySymbol : String
  FromCurrency : Option String
  ToCurrency : Option String
  LastMarket : Option String
  Volume24Hr : Option PriceValue
  VolumeAllCurrencies : Option PriceValue
  CirculatingSupply : Option PriceValue
  MarketCap : Option PriceValue
  deriving DecidableEq

/-- The Go zero value of YahooTickerInfo. -/
def emptyYahooTickerInfo : YahooTickerInfo :=
  ⟨0, none, none, "", none, none, 0, none, "", none, none, 0, none, none,
   none, none, none, none, none, none, "", none, none, none, "", "", 0,
   "", "", "", none, "", "", "", "", "", none, none, none, none, none,
   none, none⟩

/-- One entry of the quoteSummary result array of the price-module response
(types.go, YahooInfoResponse). -/
structure InfoResult where
  Price : YahooTickerInfo
  deriving DecidableEq

/-- The quoteSummary envelope of the price-module response. -/
structure InfoQuoteSummary where
  Result : List InfoResult
  Error : Option String
  deriving DecidableEq

/-- Response of the price-module request (types.go, YahooInfoResponse). -/
structure YahooInfoResponse where
  QuoteSummary : InfoQuoteSummary
  deriving DecidableEq

/-- Key financial ratios (types.go, FinancialRatios).  The financialData
module of the multi-module response is decoded into this same shape. -/
structure FinancialRatios where
  PriceToEarningsRatio : Option PriceValue
  PriceToBookRatio : Option PriceValue
  PriceToSalesRatio : Option PriceValue
  PriceToEbitda : Option PriceValue
  EnterpriseToRevenue : Option PriceValue
  EnterpriseToEbitda : Option PriceValue
  ReturnOnEquity : Option PriceValue
  ReturnOnAssets : Option PriceValue
  GrossMargins : Option PriceValue
  EbitdaMargins : Option PriceValue
  OperatingMargins : Option PriceValue
  ProfitMargins : Option PriceValue
  CurrentRatio : Option PriceValue
  QuickRatio : Option PriceValue
  DebtToEquity : Option PriceValue
  TotalDebtToCapital : Option PriceValue
  EarningsGrowth : Option PriceValue
  RevenueGrowth : Option PriceValue
  EarningsPerShare : Option PriceValue
  BookValuePerShare : Option PriceValue
  DividendRate : Option PriceValue
  DividendYield : Option PriceValue
  deriving DecidableEq

/-- The Go zero value of FinancialRatios. -/
def emptyFinancialRatios : FinancialRatios :=
  ⟨none, none, none, none, none, none, none, none, none, none, none,
   none, none, none, none, none, none, none, none, none, none, none⟩

/-- Key financial metrics summary (types.go, FinancialSummary).  The
defaultKeyStatistics module is decoded into this same shape. -/
structure FinancialSummary where
  MaxAge : Int
  MarketCap : Option PriceValue
  EnterpriseValue : Option PriceValue
  ForwardPE : Option PriceValue
  TrailingPE : Option PriceValue
  PegRatio : Option PriceValue
  PriceToSalesTrailing12Months : Option PriceValue
  PriceToBook : Option PriceValue
  Beta : Option PriceValue
  FiftyTwoWeekLow : Option PriceValue
  FiftyTwoWeekHigh : Option PriceValue
  FiftyDayAverage : Option PriceValue
  TwoHundredDayAverage : Option PriceValue
  deriving DecidableEq

/-- The Go zero value of FinancialSummary. -/
def emptyFinancialSummary : FinancialSummary :=
  ⟨0, none, none, none, none, none, none, none, none, none, none, none, none⟩

/-- The summaryDetail module of the multi-module financial response
(anonymous struct in types.go / ticker_utils.go). -/
structure SummaryDetailModule where
  MarketCap : Option PriceValue
  ForwardPE : Option PriceValue
  TrailingPE : Option PriceValue
  PriceToSalesTrailing12Months : Option PriceValue
  PriceToBook : Option PriceValue
  Beta : Option PriceValue
  DividendRate : Option PriceValue
  DividendYield : Option PriceValue
  deriving DecidableEq

/-- One income statement entry of the incomeStatementHistory module. -/
structure IncomeStatementEntry where
  EndDate : Option PriceValue
  TotalRevenue : Option PriceValue
  GrossProfit : Option PriceValue
  OperatingIncome : Option PriceValue
  NetIncome : Option PriceValue
  Ebitda : Option PriceValue
  deriving DecidableEq

/-- The incomeStatementHistory module (its inner array shares the module
name, as in the Go source). -/
structure IncomeStatementHistoryModule where
  IncomeStatementHistory : List IncomeStatementEntry
  deriving DecidableEq

/-- One balance sheet entry of the balanceSheetHistory module. -/
structure BalanceSheetEntry where
  EndDate : Option PriceValue
  TotalAssets : Option PriceValue
  TotalLiab : Option PriceValue
  TotalStockholderEquity : Option PriceValue
  TotalDebt : Option PriceValue
  Cash : Option PriceValue
  deriving DecidableEq

/-- The balanceSheetHistory module. -/
structure BalanceSheetHistoryModule where
  BalanceSheetStatements : List BalanceSheetEntry
  deriving DecidableEq

/-- One cash flow entry of the cashflowStatementHistory module. -/
structure CashflowEntry where
  EndDate : Option PriceValue
  TotalCashFromOperatingActivities : Option PriceValue
  CapitalExpenditures : Option PriceValue
  FreeCashFlow : Option PriceValue
  DividendsPaid : Option PriceValue
  deriving DecidableEq

/-- The cashflowStatementHistory module. -/
structure CashflowStatementHistoryModule where
  CashflowStatements : List CashflowEntry
  deriving DecidableEq

/-- One entry of the quoteSummary result array of the multi-module
financial response (the anonymous result struct of types.go and of the
extractors in ticker_utils.go): every module independently optional. -/
structure QuoteSummaryResult where
  DefaultKeyStatistics : Option FinancialSummary
  FinancialData : Option FinancialRatios
  SummaryDetail : Option SummaryDetailModule
  IncomeStatementHistory : Option IncomeStatementHistoryModule
  BalanceSheetHistory : Option BalanceSheetHistoryModule
  CashflowStatementHistory : Option CashflowStatementHistoryModule
  deriving DecidableEq

/-- The quoteSummary envelope of the multi-module financial response. -/
structure FinancialQuoteSummary where
  Result : List QuoteSummaryResult
  Error : Option String
  deriving DecidableEq

/-- Response of the multi-module financial requests (types.go,
YahooFinancialResponse). -/
structure YahooFinancialResponse where
  QuoteSummary : FinancialQuoteSummary
  deriving DecidableEq

/-- Income statement output record (types.go, IncomeStatement). -/
structure IncomeStatement where
  TotalRevenue : Option PriceValue
  GrossProfit : Option PriceValue
  OperatingIncome : Option PriceValue
  NetIncome : Option PriceValue
  Ebitda : Option PriceValue
  EarningsPerShare : Option PriceValue
  DilutedEPS : Option PriceValue
  deriving DecidableEq

/-- The Go zero value of IncomeStatement. -/
def emptyIncomeStatement : IncomeStatement :=
  ⟨none, none, none, none, none, none, none⟩

/-- Balance sheet output record (types.go, BalanceSheet). -/
structure BalanceSheet where
  TotalAssets : Option PriceValue
  TotalLiabilities : Option PriceValue
  TotalEquity : Option PriceValue
  TotalDebt : Option PriceValue
  Cash : Option PriceValue
  ShortTermDebt : Option PriceValue
  LongTermDebt : Option PriceValue
  BookValuePerShare : Option PriceValue
  deriving DecidableEq

/-- The Go zero value of BalanceSheet. -/
def emptyBalanceSheet : BalanceSheet :=
  ⟨none, none, none, none, none, none, none, none⟩

/-- Cash flow output record (types.go, CashFlow). -/
structure CashFlow where
  OperatingCashFlow : Option PriceValue
  FreeCashFlow : Option PriceValue
  CapitalExpenditures : Option PriceValue
  DividendsPaid : Option PriceValue
  deriving DecidableEq

/-- The Go zero value of CashFlow. -/
def emptyCashFlow : CashFlow := ⟨none, none, none, none⟩

/-- Comprehensive financial data record (types.go, FinancialData). -/
structure FinancialData where
  Ratios : FinancialRatios
  Summary : FinancialSummary
  IncomeStatement : IncomeStatement
  BalanceSheet : BalanceSheet
  CashFlow : CashFlow
  deriving DecidableEq

/-- The Go zero value of FinancialData. -/
def emptyFinancialData : FinancialData :=
  ⟨emptyFinancialRatios, emptyFinancialSummary, emptyIncomeStatement,
   emptyBalanceSheet, emptyCashFlow⟩

/-- Dividend information output record (ticker.go, DividendInfo). -/
structure DividendInfo where
  DividendRate : Option PriceValue
  DividendYield : Option PriceValue
  DividendsPaid : Option PriceValue
  PayoutRatio : Option PriceValue
  ExDividendDate : Option PriceValue
  DividendDate : Option PriceValue
  FiveYearAvgDividendYield : Option PriceValue
  deriving DecidableEq

/-- The Go zero value of DividendInfo. -/
def emptyDividendInfo : DividendInfo :=
  ⟨none, none, none, none, none, none, none⟩

/-- The summaryDetail module of the dividend-info response (anonymous
struct in ticker.go, FetchDividendInfo). -/
structure DividendSummaryDetail where
  DividendRate : Option PriceValue
  DividendYield : Option PriceValue
  ExDividendDate : Option PriceValue
  DividendDate : Option PriceValue
  PayoutRatio : Option PriceValue
  FiveYearAvgDividendYield : Option PriceValue
  deriving DecidableEq

/-- The defaultKeyStatistics module of the dividend-info response. -/
structure DividendKeyStatistics where
  DividendRate : Option PriceValue
  DividendYield : Option PriceValue
  PayoutRatio : Option PriceValue
  FiveYearAvgDividendYield : Option PriceValue
  deriving DecidableEq

/-- One cash flow entry of the dividend-info response. -/
structure DividendCashflowEntry where
  DividendsPaid : Option PriceValue
  deriving DecidableEq

/-- The cashflowStatementHistory module of the dividend-info response. -/
structure DividendCashflowModule where
  CashflowStatements : List DividendCashflowEntry
  deriving DecidableEq

/-- One entry of the quoteSummary result array of the dividend-info
response. -/
structure DividendResult where
  SummaryDetail : Option DividendSummaryDetail
  DefaultKeyStatistics : Option DividendKeyStatistics
  CashflowStatementHistory : Option DividendCashflowModule
  deriving DecidableEq

/-- The quoteSummary envelope of the dividend-info response. -/
structure DividendQuoteSummary where
  Result : List DividendResult
  Error : Option String
  deriving DecidableEq

/-- Response of the dividend-info request (anonymous struct in ticker.go,
FetchDividendInfo). -/
structure YahooDividendResponse where
  QuoteSummary : DividendQuoteSummary
  deriving DecidableEq

/-- extractFinancialRatios (ticker_utils.go lines 104-145): take valuation
and dividend fields from summaryDetail, profitability, liquidity, leverage,
growth and per-share fields from financialData, then fill trailing P/E and
price-to-book from defaultKeyStatistics only when still absent. -/
def extractFinancialRatios (result : QuoteSummaryResult) : FinancialRatios :=
  let ratios := emptyFinancialRatios
  let ratios :=
    match result.SummaryDetail with
    | none => ratios
    | some sd =>
      { ratios with
        PriceToEarningsRatio := sd.TrailingPE
        PriceToBookRatio := sd.PriceToBook
        PriceToSalesRatio := sd.PriceToSalesTrailing12Months
        DividendRate := sd.DividendRate
        DividendYield := sd.DividendYield }
  let ratios :=
    match result.FinancialData with
    | none => ratios
    | some fd =>
      { ratios with
        ReturnOnEquity := fd.ReturnOnEquity
        ReturnOnAssets := fd.ReturnOnAssets
        GrossMargins := fd.GrossMargins
        EbitdaMargins := fd.EbitdaMargins
        OperatingMargins := fd.OperatingMargins
        ProfitMargins := fd.ProfitMargins
        CurrentRatio := fd.CurrentRatio
        QuickRatio := fd.QuickRatio
        DebtToEquity := fd.DebtToEquity
        TotalDebtToCapital := fd.TotalDebtToCapital
        EarningsGrowth := fd.EarningsGrowth
        RevenueGrowth := fd.RevenueGrowth
        EarningsPerShare := fd.EarningsPerShare
        BookValuePerShare := fd.BookValuePerShare }
  match result.DefaultKeyStatistics with
  | none => ratios
  | some dks =>
    let ratios :=
      if ratios.PriceToEarningsRatio.isNone then
        { ratios with PriceToEarningsRatio := dks.TrailingPE }
      else ratios
    if ratios.PriceToBookRatio.isNone then
      { ratios with PriceToBookRatio := dks.PriceToBook }
    else ratios

/-- extractFinancialSummary (ticker_utils.go lines 190-221): start from the
defaultKeyStatistics module copied wholesale, then fill still-absent fields
from summaryDetail for six specific fields. -/
def extractFinancialSummary (result : QuoteSummaryResult) : FinancialSummary :=
  let summary :=
    match result.DefaultKeyStatistics with
    | none => emptyFinancialSummary
    | some dks => dks
  match result.SummaryDetail with
  | none => summary
  | some sd =>
    let summary :=
      if summary.MarketCap.isNone then { summary with MarketCap := sd.MarketCap }
      else summary
    let summary :=
      if summary.ForwardPE.isNone then { summary with ForwardPE := sd.ForwardPE }
      else summary
    let summary :=
      if summary.TrailingPE.isNone then { summary with TrailingPE := sd.TrailingPE }
      else summary
    let summary :=
      if summary.PriceToSalesTrailing12Months.isNone then
        { summary with PriceToSalesTrailing12Months := sd.PriceToSalesTrailing12Months }
      else summary
    let summary :=
      if summary.PriceToBook.isNone then { summary with PriceToBook := sd.PriceToBook }
      else summary
    if summary.Beta.isNone then { summary with Beta := sd.Beta }
    else summary

/-- extractIncomeStatement (ticker_utils.go lines 266-285): most recent
income statement entry, EPS supplemented from financialData. -/
def extractIncomeStatement (result : QuoteSummaryResult) : IncomeStatement :=
  let income := emptyIncomeStatement
  let income :=
    match result.IncomeStatementHistory with
    | none => income
    | some hist =>
      match hist.IncomeStatementHistory with
      | [] => income
      | latest :: _ =>
        { income with
          TotalRevenue := latest.TotalRevenue
          GrossProfit := latest.GrossProfit
          OperatingIncome := latest.OperatingIncome
          NetIncome := latest.NetIncome
          Ebitda := latest.Ebitda }
  match result.FinancialData with
  | none => income
  | some fd => { income with EarningsPerShare := fd.EarningsPerShare }

/-- extractBalanceSheet (ticker_utils.go lines 330-349): most recent
balance sheet entry, book value per share supplemented from financialData. -/
def extractBalanceSheet (result : QuoteSummaryResult) : BalanceSheet :=
  let balance := emptyBalanceSheet
  let balance :=
    match result.BalanceSheetHistory with
    | none => balance
    | some hist =>
      match hist.BalanceSheetStatements with
      | [] => balance
      | latest :: _ =>
        { balance with
          TotalAssets := latest.TotalAssets
          TotalLiabilities := latest.TotalLiab
          TotalEquity := latest.TotalStockholderEquity
          TotalDebt := latest.TotalDebt
          Cash := latest.Cash }
  match result.FinancialData with
  | none => balance
  | some fd => { balance with BookValuePerShare := fd.BookValuePerShare }

/-- extractCashFlow (ticker_utils.go lines 394-407): most recent cash flow
statement entry. -/
def extractCashFlow (result : QuoteSummaryResult) : CashFlow :=
  match result.CashflowStatementHistory with
  | none => emptyCashFlow
  | some hist =>
    match hist.CashflowStatements with
    | [] => emptyCashFlow
    | latest :: _ =>
      { emptyCashFlow with
        OperatingCashFlow := latest.TotalCashFromOperatingActivities
        CapitalExpenditures := latest.CapitalExpenditures
        FreeCashFlow := latest.FreeCashFlow
        DividendsPaid := latest.DividendsPaid }

/-- transformFinancialData (ticker_utils.go lines 51-59). -/
def transformFinancialData (result : QuoteSummaryResult) : FinancialData :=
  { Ratios := extractFinancialRatios result
    Summary := extractFinancialSummary result
    IncomeStatement := extractIncomeStatement result
    BalanceSheet := extractBalanceSheet result
    CashFlow := extractCashFlow result }

/-- extractDividendInfo (ticker_utils.go lines 466-503): prefer
summaryDetail, fall back to defaultKeyStatistics field by field, dividends
paid from the most recent cash flow entry. -/
def extractDividendInfo (result : DividendResult) : DividendInfo :=
  let dividend := emptyDividendInfo
  let dividend :=
    match result.SummaryDetail with
    | none => dividend
    | some sd =>
      { dividend with
        DividendRate := sd.DividendRate
        DividendYield := sd.DividendYield
        ExDividendDate := sd.ExDividendDate
        DividendDate := sd.DividendDate
        PayoutRatio := sd.PayoutRatio
        FiveYearAvgDividendYield := sd.FiveYearAvgDividendYield }
  let dividend :=
    match result.DefaultKeyStatistics with
    | none => dividend
    | some dks =>
      let dividend :=
        if dividend.DividendRate.isNone then
          { dividend with DividendRate := dks.DividendRate }
        else dividend
      let dividend :=
        if dividend.DividendYield.isNone then
          { dividend with DividendYield := dks.DividendYield }
        else dividend
      let dividend :=
        if dividend.PayoutRatio.isNone then
          { dividend with PayoutRatio := dks.PayoutRatio }
        else dividend
      if dividend.FiveYearAvgDividendYield.isNone then
        { dividend with FiveYearAvgDividendYield := dks.FiveYearAvgDividendYield }
      else dividend
  match result.CashflowStatementHistory with
  | none => dividend
  | some hist =>
    match hist.CashflowStatements with
    | [] => dividend
    | latest :: _ => { dividend with DividendsPaid := latest.DividendsPaid }

/-- Precedence operator of the spec (section 4.3): take the first candidate
that carries a non-absent value, use the second strictly as fallback. -/
def firstSome (a b : Option PriceValue) : Option PriceValue :=
  match a with
  | some v => some v
  | none => b

/-- Summary merge as worded by the spec (section 4.3): start from
defaultKeyStatistics wholesale, then fill any still-absent field among
market cap, forward P/E, trailing P/E, price-to-sales, price-to-book and
beta from summaryDetail. -/
def summarySpecMerge (result : QuoteSummaryResult) : FinancialSummary :=
  let base :=
    match result.DefaultKeyStatistics with
    | none => emptyFinancialSummary
    | some dks => dks
  { base with
    MarketCap := firstSome base.MarketCap (result.SummaryDetail.bind (fun sd => sd.MarketCap))
    ForwardPE := firstSome base.ForwardPE (result.SummaryDetail.bind (fun sd => sd.ForwardPE))
    TrailingPE := firstSome base.TrailingPE (result.SummaryDetail.bind (fun sd => sd.TrailingPE))
    PriceToSalesTrailing12Months :=
      firstSome base.PriceToSalesTrailing12Months
        (result.SummaryDetail.bind (fun sd => sd.PriceToSalesTrailing12Months))
    PriceToBook := firstSome base.PriceToBook (result.SummaryDetail.bind (fun sd => sd.PriceToBook))
    Beta := firstSome base.Beta (result.SummaryDetail.bind (fun sd => sd.Beta)) }

/-- Historical price record keyed by time (types.go, PriceData). -/
structure PriceData where
  Open : Option Rat
  High : Option Rat
  Low : Option Rat
  Close : Option Rat
  Volume : Option Int
  deriving DecidableEq

/-- The quote block of the chart response: five parallel, independently
nullable arrays (types.go, YahooHistoryResponse). -/
structure QuoteBlock where
  Open : List (Option Rat)
  High : List (Option Rat)
  Low : List (Option Rat)
  Close : List (Option Rat)
  Volume : List (Option Int)
  deriving DecidableEq

/-- The indicators block of one chart result. -/
structure IndicatorsBlock where
  Quote : List QuoteBlock
  deriving DecidableEq

/-- One entry of the chart result array.  The meta block of the Go struct
is never read by transformHistoricalData or by any claim under study and
is omitted from the embedding. -/
structure ChartResult where
  Timestamp : List Int
  Indicators : IndicatorsBlock
  deriving DecidableEq

/-- The chart envelope of the historical-data response. -/
structure ChartBlock where
  Result : List ChartResult
  Error : Option String
  deriving DecidableEq

/-- Response of the historical-data request (types.go,
YahooHistoryResponse). -/
structure YahooHistoryResponse where
  Chart : ChartBlock
  deriving DecidableEq

/-- Decimal digit character, as produced by Go's integer formatting. -/
def decChar (n : Nat) : Char := Nat.digitChar (n % 10)

/-- Zero-padded two-digit decimal rendering, as produced by Go's
appendInt with width 2 for a non-negative value: two digits when the value
is below 100, plain decimal otherwise. -/
def pad2 (n : Nat) : String :=
  if n < 100 then String.mk [decChar (n / 10), decChar n] else Nat.repr n

/-- Zero-padded four-digit decimal rendering, as produced by Go's
appendInt with width 4 for a non-negative value: four digits when the
value is below 10000, plain decimal otherwise (five or more digits are
printed in full, widening the field). -/
def pad4 (n : Nat) : String :=
  if n < 10000 then
    String.mk [decChar (n / 1000), decChar (n / 100), decChar (n / 10), decChar n]
  else Nat.repr n

/-- Year rendering of Go's appendInt with width 4: a minus sign followed
by the padded magnitude for negative years. -/
def formatYear (y : Int) : String :=
  if y < 0 then "-" ++ pad4 (Int.toNat (-y)) else pad4 (Int.toNat y)

/-- Year-of-era of the era-based civil-from-days conversion (the
proleptic Gregorian calendar computed by Go's absDate). -/
def yoeOf (doe : Nat) : Nat :=
  (doe - doe / 1460 + doe / 36524 - doe / 146096) / 365

/-- Day-of-year (March-based) within the era. -/
def doyOf (doe : Nat) : Nat :=
  doe - (365 * yoeOf doe + yoeOf doe / 4 - yoeOf doe / 100)

/-- March-based month index derived from the day-of-year. -/
def mpOf (doy : Nat) : Nat := (5 * doy + 2) / 153

/-- Day of month derived from the day-of-year. -/
def dayOfMonth (doy : Nat) : Nat := doy - (153 * mpOf doy + 2) / 5 + 1

/-- Calendar month derived from the day-of-year. -/
def monthOf (doy : Nat) : Nat :=
  if mpOf doy < 10 then mpOf doy + 3 else mpOf doy - 9

/-- Day-of-era of a day count relative to 1970-01-01: the remainder of
the 400-year Gregorian cycle (a value in [0, 146096]). -/
def doeOfDays (days : Int) : Nat :=
  Int.toNat (days + 719468 - (days + 719468) / 146097 * 146097)

/-- Civil date (year, month, day) of a day count relative to 1970-01-01,
in the proleptic Gregorian calendar: the conversion performed by Go's
time package when formatting a Unix time.  The wall clock offset is fixed
to zero (the spec describes the keys as UTC-relative). -/
def civilFromDays (days : Int) : Int × Nat × Nat :=
  let era := (days + 719468) / 146097
  let doe := doeOfDays days
  let doy := doyOf doe
  let m := monthOf doy
  (era * 400 + yoeOf doe + (if m ≤ 2 then 1 else 0), m, dayOfMonth doy)

/-- Civil year of an epoch-seconds timestamp. -/
def yearOf (ts : Int) : Int := (civilFromDays (ts / 86400)).1

/-- Rendering of Go's Format layout 2006-01-02 on a Unix timestamp. -/
def formatDate (ts : Int) : String :=
  formatYear (civilFromDays (ts / 86400)).1 ++ "-"
    ++ pad2 (civilFromDays (ts / 86400)).2.1 ++ "-"
    ++ pad2 (civilFromDays (ts / 86400)).2.2

/-- Rendering of Go's Format layout 2006-01-02 15:04:05 on a Unix
timestamp. -/
def formatDateTime (ts : Int) : String :=
  formatDate ts ++ " " ++ pad2 (Int.toNat (ts % 86400) / 3600) ++ ":"
    ++ pad2 (Int.toNat (ts % 86400) % 3600 / 60) ++ ":"
    ++ pad2 (Int.toNat (ts % 86400) % 60)

/-- Embedding of strings.HasSuffix on the character sequences of the two
strings. -/
def hasSuffixB (s post : String) : Bool :=
  post.data.isSuffixOf s.data

/-- The key formatting rule of transformHistoricalData (ticker_utils.go
lines 417-424): calendar date for granularities ending in d, wk or mo,
full date-time otherwise. -/
def formatTimestampKey (interval : String) (ts : Int) : String :=
  if hasSuffixB interval "d" || hasSuffixB interval "wk" || hasSuffixB interval "mo" then
    formatDate ts
  else formatDateTime ts

/-- The bounds guard of transformHistoricalData (ticker_utils.go line
431): position i must be within bounds of all five parallel arrays. -/
def inBoundsB (quote : QuoteBlock) (i : Nat) : Bool :=
  decide (i < quote.Open.length) && decide (i < quote.High.length) &&
    decide (i < quote.Low.length) && decide (i < quote.Close.length) &&
    decide (i < quote.Volume.length)

/-- The record built for an in-bounds position (ticker_utils.go lines
432-438); nothing is built when the guard fails. -/
def emitRow (quote : QuoteBlock) (i : Nat) : Option PriceData :=
  if inBoundsB quote i then
    some
      { Open := quote.Open.getD i none
        High := quote.High.getD i none
        Low := quote.Low.getD i none
        Close := quote.Close.getD i none
        Volume := quote.Volume.getD i none }
  else none

/-- Assignment into a string-keyed Go map: replace the stored value when
the key exists, append a new binding otherwise. -/
def upsert (d : List (String × PriceData)) (k : String) (v : PriceData) :
    List (String × PriceData) :=
  match d with
  | [] => [(k, v)]
  | (k0, v0) :: rest =>
    if k0 = k then (k, v) :: rest else (k0, v0) :: upsert rest k v

/-- One iteration of the transformHistoricalData loop body on the map
accumulator: require a non-empty quote array, apply the bounds guard, and
assign the row under the formatted key (ticker_utils.go lines 426-440). -/
def stepMap (res : ChartResult) (interval : String) (i : Nat) (ts : Int)
    (d : List (String × PriceData)) : List (String × PriceData) :=
  match res.Indicators.Quote with
  | [] => d
  | quote :: _ =>
    match emitRow quote i with
    | some row => upsert d (formatTimestampKey interval ts) row
    | none => d

/-- The loop of transformHistoricalData over the timestamp array with its
running index (ticker_utils.go lines 417-441). -/
def transformLoop (res : ChartResult) (interval : String) :
    Nat → List Int → List (String × PriceData) → List (String × PriceData)
  | _, [], d => d
  | i, ts :: rest, d =>
    transformLoop res interval (i + 1) rest (stepMap res interval i ts d)

/-- transformHistoricalData (ticker_utils.go lines 410-443). -/
def transformHistoricalData (data : YahooHistoryResponse) (interval : String) :
    List (String × PriceData) :=
  match data.Chart.Result with
  | [] => []
  | res :: _ => transformLoop res interval 0 res.Timestamp []

/-- FetchInformation post-decode logic (ticker.go lines 41-81): an empty
result array is the hard error, otherwise the price module of the first
entry is returned.  The pair mirrors the Go pair of value and error. -/
def FetchInformation (symbol : String) (resp : YahooInfoResponse) :
    YahooTickerInfo × Option String :=
  match resp.QuoteSummary.Result with
  | [] => (emptyYahooTickerInfo, some ("no info found for symbol: " ++ symbol))
  | r :: _ => (r.Price, none)

/-- FetchHistoricalData post-decode logic (ticker.go lines 110-160),
including the consumer-facing interval default. -/
def FetchHistoricalData (symbol interval : String) (resp : YahooHistoryResponse) :
    List (String × PriceData) × Option String :=
  let interval2 := if interval = "" then "1d" else interval
  match resp.Chart.Result with
  | [] => ([], some ("no data found for symbol: " ++ symbol))
  | _ :: _ => (transformHistoricalData resp interval2, none)

/-- FetchFinancialData post-decode logic (ticker.go lines 258-294). -/
def FetchFinancialData (symbol : String) (resp : YahooFinancialResponse) :
    FinancialData × Option String :=
  match resp.QuoteSummary.Result with
  | [] => (emptyFinancialData, some ("no financial data found for symbol: " ++ symbol))
  | r :: _ => (transformFinancialData r, none)

/-- FetchFinancialRatios post-decode logic (ticker.go lines 297-326). -/
def FetchFinancialRatios (symbol : String) (resp : YahooFinancialResponse) :
    FinancialRatios × Option String :=
  match resp.QuoteSummary.Result with
  | [] => (emptyFinancialRatios, some ("no financial ratios found for symbol: " ++ symbol))
  | r :: _ => (extractFinancialRatios r, none)

/-- FetchKeyStatistics post-decode logic (ticker.go lines 329-358). -/
def FetchKeyStatistics (symbol : String) (resp : YahooFinancialResponse) :
    FinancialSummary × Option String :=
  match resp.QuoteSummary.Result with
  | [] => (emptyFinancialSummary, some ("no key statistics found for symbol: " ++ symbol))
  | r :: _ => (extractFinancialSummary r, none)

/-- FetchIncomeStatement post-decode logic (ticker.go lines 361-390). -/
def FetchIncomeStatement (symbol : String) (resp : YahooFinancialResponse) :
    IncomeStatement × Option String :=
  match resp.QuoteSummary.Result with
  | [] => (emptyIncomeStatement, some ("no income statement found for symbol: " ++ symbol))
  | r :: _ => (extractIncomeStatement r, none)

/-- FetchBalanceSheet post-decode logic (ticker.go lines 393-422). -/
def FetchBalanceSheet (symbol : String) (resp : YahooFinancialResponse) :
    BalanceSheet × Option String :=
  match resp.QuoteSummary.Result with
  | [] => (emptyBalanceSheet, some ("no balance sheet found for symbol: " ++ symbol))
  | r :: _ => (extractBalanceSheet r, none)

/-- FetchCashFlow post-decode logic (ticker.go lines 425-454). -/
def FetchCashFlow (symbol : String) (resp : YahooFinancialResponse) :
    CashFlow × Option String :=
  match resp.QuoteSummary.Result with
  | [] => (emptyCashFlow, some ("no cash flow found for symbol: " ++ symbol))
  | r :: _ => (extractCashFlow r, none)

/-- FetchDividendInfo post-decode logic (ticker.go lines 469-526). -/
def FetchDividendInfo (symbol : String) (resp : YahooDividendResponse) :
    DividendInfo × Option String :=
  match resp.QuoteSummary.Result with
  | [] => (emptyDividendInfo, some ("no dividend info found for symbol: " ++ symbol))
  | r :: _ => (extractDividendInfo r, none)

/-- FetchDividendRate (ticker.go lines 543-554): propagate a fetch error,
report a domain error when the rate field is absent, otherwise return the
raw value. -/
def FetchDividendRate (symbol : String) (resp : YahooDividendResponse) :
    Rat × Option String :=
  match FetchDividendInfo symbol resp with
  | (_, some e) => (0, some e)
  | (info, none) =>
    match info.DividendRate with
    | none => (0, some ("dividend rate not available for symbol: " ++ symbol))
    | some pv => (pv.Raw, none)

/-- IsDividendPaying (ticker.go lines 557-565): a stock pays dividends
when the extracted rate is present with positive raw value. -/
def IsDividendPaying (symbol : String) (resp : YahooDividendResponse) :
    Bool × Option String :=
  match FetchDividendInfo symbol resp with
  | (_, some e) => (false, some e)
  | (info, none) =>
    match info.DividendRate with
    | none => (false, none)
    | some pv => (decide (0 < pv.Raw), none)

/-- Program counter of one caller executing Client.Get's bootstrap path:
the crumb null-check, the cookie null-check, the cookie fetch and the
crumb fetch of getCrumb / getCookie (client.go lines 62-103). -/
inductive BootPC where
  | checkCrumb
  | checkCookies
  | fetchCookie
  | fetchCrumb
  | done
  deriving DecidableEq

/-- Shared client state plus the program counter of every caller.  The
shared part embeds the singleton Client built by getClient (the sync.Once
gate covers only this construction): the crumb string, whether the cookie
jar is non-empty, and instrumentation counting the outbound cookie and
crumb fetches. -/
structure BootSys where
  crumb : String
  cookiesPresent : Bool
  cookieFetches : Nat
  crumbFetches : Nat
  pcs : List BootPC
  deriving DecidableEq

/-- Body returned by the k-th crumb fetch in the environment model: the
endpoint always answers, with a non-empty opaque token. -/
def crumbBody (k : Nat) : String := "crumb-" ++ Nat.repr k

/-- One atomic step of caller tid, following the source line by line:
getCrumb returns at once when the crumb is already non-empty, getCookie
returns at once when cookies are already present, a cookie fetch stores
the returned cookies, a crumb fetch stores the response body as the
crumb.  Fetch-and-store is taken as one atomic action, which only shrinks
the set of interleavings of the real code. -/
def bootStep (s : BootSys) (tid : Nat) : BootSys :=
  match s.pcs.get? tid with
  | none => s
  | some pc =>
    match pc with
    | BootPC.checkCrumb =>
      { s with pcs := s.pcs.set tid (if s.crumb = "" then BootPC.checkCookies else BootPC.done) }
    | BootPC.checkCookies =>
      { s with pcs := s.pcs.set tid (if s.cookiesPresent then BootPC.fetchCrumb else BootPC.fetchCookie) }
    | BootPC.fetchCookie =>
      { s with
        cookiesPresent := true
        cookieFetches := s.cookieFetches + 1
        pcs := s.pcs.set tid BootPC.fetchCrumb }
    | BootPC.fetchCrumb =>
      { s with
        crumb := crumbBody s.crumbFetches
        crumbFetches := s.crumbFetches + 1
        pcs := s.pcs.set tid BootPC.done }
    | BootPC.done => s

/-- Run a schedule: at each tick the named caller performs its next
atomic step. -/
def runSched (sched : List Nat) (s : BootSys) : BootSys :=
  sched.foldl bootStep s

/-- Initial state for n concurrent first-use callers of the freshly
constructed singleton client (client.go line 28): empty crumb, empty
cookie jar, no fetches issued. -/
def initBoot (n : Nat) : BootSys :=
  { crumb := ""
    cookiesPresent := false
    cookieFetches := 0
    crumbFetches := 0
    pcs := List.replicate n BootPC.checkCrumb }

/-- C1: two concurrent first-use callers of Client.Get, interleaved so
that both pass the crumb null-check and the cookie null-check before
either fetch lands, drive the session bootstrap to issue two cookie
fetches and two crumb fetches.  The sync.Once gate of getClient covers
only construction of the shared client, not token acquisition, so the
claimed exactly-one-fetch guarantee fails: acquisition is guarded by a
plain null-check. -/
theorem getCrumb_double_fetch_interleaving :
    (runSched [0, 1, 0, 1, 0, 1, 0, 1] (initBoot 2)).cookieFetches = 2 ∧
    (runSched [0, 1, 0, 1, 0, 1, 0, 1] (initBoot 2)).crumbFetches = 2 ∧
    (runSched [0, 1, 0, 1, 0, 1, 0, 1] (initBoot 2)).pcs = [BootPC.done, BootPC.done] := by
  decide

/-- Sanity check of the bootstrap model: a serialized first use issues
exactly one cookie fetch and one crumb fetch, and the second caller
returns at the crumb null-check. -/
theorem getCrumb_sequential_single_fetch :
    (runSched [0, 0, 0, 0, 1] (initBoot 2)).cookieFetches = 1 ∧
    (runSched [0, 0, 0, 0, 1] (initBoot 2)).crumbFetches = 1 ∧
    (runSched [0, 0, 0, 0, 1] (initBoot 2)).pcs = [BootPC.done, BootPC.done] := by
  decide

/-- C7: a time-series response whose chart result array is empty
transforms to the empty mapping, for every granularity string; the
transform is total and signals no error. -/
theorem transformHistoricalData_empty_result (data : YahooHistoryResponse)
    (interval : String) (h : data.Chart.Result = []) :
    transformHistoricalData data interval = [] := by
  simp [transformHistoricalData, h]

/-- Witness for C7 at a concrete empty response. -/
theorem transformHistoricalData_empty_result_witness :
    transformHistoricalData ⟨⟨[], none⟩⟩ "1d" = [] :=
  transformHistoricalData_empty_result ⟨⟨[], none⟩⟩ "1d" rfl

/-- C6: for every extraction entry point, a well-formed response whose
top-level result array is empty yields the hard error of the form
"no ... found for symbol: X" together with the empty-valued record, never
a silent success. -/
theorem fetch_empty_result_is_hard_error (symbol interval : String)
    (ri : YahooInfoResponse) (rh : YahooHistoryResponse)
    (rf : YahooFinancialResponse) (rd : YahooDividendResponse) :
    (ri.QuoteSummary.Result = [] →
      FetchInformation symbol ri =
        (emptyYahooTickerInfo, some ("no info found for symbol: " ++ symbol))) ∧
    (rh.Chart.Result = [] →
      FetchHistoricalData symbol interval rh =
        ([], some ("no data found for symbol: " ++ symbol))) ∧
    (rf.QuoteSummary.Result = [] →
      FetchFinancialData symbol rf =
        (emptyFinancialData, some ("no financial data found for symbol: " ++ symbol)) ∧
      FetchFinancialRatios symbol rf =
        (emptyFinancialRatios, some ("no financial ratios found for symbol: " ++ symbol)) ∧
      FetchKeyStatistics symbol rf =
        (emptyFinancialSummary, some ("no key statistics found for symbol: " ++ symbol)) ∧
      FetchIncomeStatement symbol rf =
        (emptyIncomeStatement, some ("no income statement found for symbol: " ++ symbol)) ∧
      FetchBalanceSheet symbol rf =
        (emptyBalanceSheet, some ("no balance sheet found for symbol: " ++ symbol)) ∧
      FetchCashFlow symbol rf =
        (emptyCashFlow, some ("no cash flow found for symbol: " ++ symbol))) ∧
    (rd.QuoteSummary.Result = [] →
      FetchDividendInfo symbol rd =
        (emptyDividendInfo, some ("no dividend info found for symbol: " ++ symbol))) := by
  refine ⟨fun h => ?_, fun h => ?_, fun h => ?_, fun h => ?_⟩
  · simp [FetchInformation, h]
  · simp [FetchHistoricalData, h]
  · exact ⟨by simp [FetchFinancialData, h], by simp [FetchFinancialRatios, h],
      by simp [FetchKeyStatistics, h], by simp [FetchIncomeStatement, h],
      by simp [FetchBalanceSheet, h], by simp [FetchCashFlow, h]⟩
  · simp [FetchDividendInfo, h]

/-- Witness for C6 at concrete empty responses. -/
theorem fetch_empty_result_is_hard_error_witness :
    FetchInformation "AAPL" ⟨⟨[], none⟩⟩ =
      (emptyYahooTickerInfo, some ("no info found for symbol: " ++ "AAPL")) ∧
    FetchHistoricalData "AAPL" "1d" ⟨⟨[], none⟩⟩ =
      ([], some ("no data found for symbol: " ++ "AAPL")) ∧
    FetchBalanceSheet "AAPL" ⟨⟨[], none⟩⟩ =
      (emptyBalanceSheet, some ("no balance sheet found for symbol: " ++ "AAPL")) ∧
    FetchDividendInfo "AAPL" ⟨⟨[], none⟩⟩ =
      (emptyDividendInfo, some ("no dividend info found for symbol: " ++ "AAPL")) := by
  have h := fetch_empty_result_is_hard_error "AAPL" "1d" ⟨⟨[], none⟩⟩ ⟨⟨[], none⟩⟩
    ⟨⟨[], none⟩⟩ ⟨⟨[], none⟩⟩
  exact ⟨h.1 rfl, h.2.1 rfl, (h.2.2.1 rfl).2.2.2.2.1, h.2.2.2 rfl⟩

/-- C9: on a successfully fetched dividend-info record, FetchDividendRate
errors with "dividend rate not available for symbol: X" exactly when the
extracted DividendRate is absent, and returns the raw value without error
when it is present; absence is distinguished from a raw value of zero. -/
theorem FetchDividendRate_absent_vs_zero (symbol : String)
    (resp : YahooDividendResponse) (r : DividendResult) (rest : List DividendResult)
    (h : resp.QuoteSummary.Result = r :: rest) :
    ((extractDividendInfo r).DividendRate = none →
      FetchDividendRate symbol resp =
        (0, some ("dividend rate not available for symbol: " ++ symbol))) ∧
    (∀ pv, (extractDividendInfo r).DividendRate = some pv →
      FetchDividendRate symbol resp = (pv.Raw, none)) := by
  have hinfo : FetchDividendInfo symbol resp = (extractDividendInfo r, none) := by
    simp [FetchDividendInfo, h]
  refine ⟨fun hr => ?_, fun pv hr => ?_⟩ <;>
    simp [FetchDividendRate, hinfo, hr]

/-- Concrete dividend result whose summaryDetail carries a dividend rate
with raw value zero. -/
def zeroRateDividendResult : DividendResult :=
  { SummaryDetail :=
      some ⟨some ⟨0, "0.00", ""⟩, none, none, none, none, none⟩
    DefaultKeyStatistics := none
    CashflowStatementHistory := none }

/-- Concrete dividend result with every module absent (so the extracted
rate is absent). -/
def absentRateDividendResult : DividendResult :=
  { SummaryDetail := none
    DefaultKeyStatistics := none
    CashflowStatementHistory := none }

/-- Witness for C9: a present rate of raw value 0 yields (0, no error); an
absent rate yields the domain error. -/
theorem FetchDividendRate_absent_vs_zero_witness :
    FetchDividendRate "KO" ⟨⟨[zeroRateDividendResult], none⟩⟩ = (0, none) ∧
    FetchDividendRate "KO" ⟨⟨[absentRateDividendResult], none⟩⟩ =
      (0, some ("dividend rate not available for symbol: " ++ "KO")) := by
  constructor
  · exact (FetchDividendRate_absent_vs_zero "KO" ⟨⟨[zeroRateDividendResult], none⟩⟩
      zeroRateDividendResult [] rfl).2 ⟨0, "0.00", ""⟩ rfl
  · exact (FetchDividendRate_absent_vs_zero "KO" ⟨⟨[absentRateDividendResult], none⟩⟩
      absentRateDividendResult [] rfl).1 rfl

/-- C10: on a successfully fetched dividend-info record, IsDividendPaying
returns no error, its boolean is true exactly when the extracted rate is
present with strictly positive raw value, and a present rate that is zero
or negative yields false with no error even though FetchDividendRate
returns that same raw value without error. -/
theorem IsDividendPaying_iff_positive_rate (symbol : String)
    (resp : YahooDividendResponse) (r : DividendResult) (rest : List DividendResult)
    (h : resp.QuoteSummary.Result = r :: rest) :
    (IsDividendPaying symbol resp).2 = none ∧
    ((IsDividendPaying symbol resp).1 = true ↔
      ∃ pv, (extractDividendInfo r).DividendRate = some pv ∧ 0 < pv.Raw) ∧
    (∀ pv, (extractDividendInfo r).DividendRate = some pv → pv.Raw ≤ 0 →
      IsDividendPaying symbol resp = (false, none) ∧
      FetchDividendRate symbol resp = (pv.Raw, none)) := by
  have hinfo : FetchDividendInfo symbol resp = (extractDividendInfo r, none) := by
    simp [FetchDividendInfo, h]
  have hrate : ∀ pv, (extractDividendInfo r).DividendRate = some pv →
      FetchDividendRate symbol resp = (pv.Raw, none) := by
    intro pv hr
    simp [FetchDividendRate, hinfo, hr]
  cases hdr : (extractDividendInfo r).DividendRate with
  | none =>
    refine ⟨?_, ?_, ?_⟩
    · simp [IsDividendPaying, hinfo, hdr]
    · simp [IsDividendPaying, hinfo, hdr]
    · intro pv hpv
      exact absurd hpv (by simp)
  | some pv =>
    refine ⟨?_, ?_, ?_⟩
    · simp [IsDividendPaying, hinfo, hdr]
    · simp [IsDividendPaying, hinfo, hdr]
    · intro pv2 hpv2 hle
      have hpveq : pv = pv2 := by injection hpv2
      subst hpveq
      refine ⟨?_, hrate pv hdr⟩
      have hnot : ¬ (0 < pv.Raw) := not_lt.mpr hle
      simp [IsDividendPaying, hinfo, hdr, hnot]

/-- Witness for C10: the zero-raw-rate record is not dividend paying, with
no error, while FetchDividendRate returns 0 with no error on it. -/
theorem IsDividendPaying_iff_positive_rate_witness :
    IsDividendPaying "KO" ⟨⟨[zeroRateDividendResult], none⟩⟩ = (false, none) ∧
    FetchDividendRate "KO" ⟨⟨[zeroRateDividendResult], none⟩⟩ = (0, none) :=
  (IsDividendPaying_iff_positive_rate "KO" ⟨⟨[zeroRateDividendResult], none⟩⟩
    zeroRateDividendResult [] rfl).2.2 ⟨0, "0.00", ""⟩ rfl (by norm_num)

/-- C2: extractFinancialRatios fills trailing P/E and price-to-book from
summaryDetail first and uses defaultKeyStatistics strictly as fallback
for those two fields when still absent; when both modules carry the
value, the summaryDetail value wins and the fallback is never used. -/
theorem extractFinancialRatios_pe_pb_precedence (r : QuoteSummaryResult) :
    (extractFinancialRatios r).PriceToEarningsRatio =
      firstSome (r.SummaryDetail.bind (fun sd => sd.TrailingPE))
        (r.DefaultKeyStatistics.bind (fun dks => dks.TrailingPE)) ∧
    (extractFinancialRatios r).PriceToBookRatio =
      firstSome (r.SummaryDetail.bind (fun sd => sd.PriceToBook))
        (r.DefaultKeyStatistics.bind (fun dks => dks.PriceToBook)) ∧
    (∀ sd pe, r.SummaryDetail = some sd → sd.TrailingPE = some pe →
      (extractFinancialRatios r).PriceToEarningsRatio = some pe) ∧
    (∀ sd pb, r.SummaryDetail = some sd → sd.PriceToBook = some pb →
      (extractFinancialRatios r).PriceToBookRatio = some pb) := by
  obtain ⟨dks, fd, sd, ih, bh, ch⟩ := r
  have h12 :
      (extractFinancialRatios ⟨dks, fd, sd, ih, bh, ch⟩).PriceToEarningsRatio =
        firstSome (sd.bind (fun s => s.TrailingPE)) (dks.bind (fun k => k.TrailingPE)) ∧
      (extractFinancialRatios ⟨dks, fd, sd, ih, bh, ch⟩).PriceToBookRatio =
        firstSome (sd.bind (fun s => s.PriceToBook)) (dks.bind (fun k => k.PriceToBook)) := by
    rcases sd with _ | ⟨mc, fpe, tpe, pts, ptb, bet, dr, dy⟩ <;>
      rcases fd with _ | fd <;> rcases dks with _ | dks <;> try exact ⟨rfl, rfl⟩
    all_goals (rcases tpe with _ | pe <;> rcases ptb with _ | pb <;> exact ⟨rfl, rfl⟩)
  refine ⟨h12.1, h12.2, ?_, ?_⟩
  · intro s pe hs hpe
    subst hs
    rw [h12.1]
    simp [firstSome, hpe]
  · intro s pb hs hpb
    subst hs
    rw [h12.2]
    simp [firstSome, hpb]

/-- Multi-module result where both summaryDetail and defaultKeyStatistics
carry trailing P/E and price-to-book. -/
def bothModulesResult : QuoteSummaryResult :=
  { DefaultKeyStatistics :=
      some { emptyFinancialSummary with
               TrailingPE := some ⟨99, "99", ""⟩
               PriceToBook := some ⟨98, "98", ""⟩ }
    FinancialData := none
    SummaryDetail :=
      some ⟨none, none, some ⟨12, "12", ""⟩, none, some ⟨3, "3", ""⟩, none, none, none⟩
    IncomeStatementHistory := none
    BalanceSheetHistory := none
    CashflowStatementHistory := none }

/-- Witness for C2: with both modules set, the summaryDetail values are
returned, never the defaultKeyStatistics fallback. -/
theorem extractFinancialRatios_pe_pb_precedence_witness :
    (extractFinancialRatios bothModulesResult).PriceToEarningsRatio = some ⟨12, "12", ""⟩ ∧
    (extractFinancialRatios bothModulesResult).PriceToBookRatio = some ⟨3, "3", ""⟩ :=
  ⟨(extractFinancialRatios_pe_pb_precedence bothModulesResult).2.2.1
      ⟨none, none, some ⟨12, "12", ""⟩, none, some ⟨3, "3", ""⟩, none, none, none⟩
      ⟨12, "12", ""⟩ rfl rfl,
   (extractFinancialRatios_pe_pb_precedence bothModulesResult).2.2.2
      ⟨none, none, some ⟨12, "12", ""⟩, none, some ⟨3, "3", ""⟩, none, none, none⟩
      ⟨3, "3", ""⟩ rfl rfl⟩

/-- C3: extractFinancialSummary equals the spec-side merge (start from
defaultKeyStatistics wholesale, fill only the six listed still-absent
fields from summaryDetail), and a field already carrying a value from
defaultKeyStatistics is never overridden by summaryDetail. -/
theorem extractFinancialSummary_matches_spec (r : QuoteSummaryResult) :
    extractFinancialSummary r = summarySpecMerge r ∧
    (∀ dks, r.DefaultKeyStatistics = some dks →
      (∀ v, dks.MarketCap = some v → (extractFinancialSummary r).MarketCap = some v) ∧
      (∀ v, dks.ForwardPE = some v → (extractFinancialSummary r).ForwardPE = some v) ∧
      (∀ v, dks.TrailingPE = some v → (extractFinancialSummary r).TrailingPE = some v) ∧
      (∀ v, dks.PriceToSalesTrailing12Months = some v →
        (extractFinancialSummary r).PriceToSalesTrailing12Months = some v) ∧
      (∀ v, dks.PriceToBook = some v → (extractFinancialSummary r).PriceToBook = some v) ∧
      (∀ v, dks.Beta = some v → (extractFinancialSummary r).Beta = some v)) := by
  obtain ⟨dks, fd, sd, ih, bh, ch⟩ := r
  have heq : extractFinancialSummary ⟨dks, fd, sd, ih, bh, ch⟩ =
      summarySpecMerge ⟨dks, fd, sd, ih, bh, ch⟩ := by
    rcases dks with _ | ⟨ma, mc, ev, fpe, tpe, peg, pts, ptb, bet, l52, h52, f50, t200⟩ <;>
      rcases sd with _ | ⟨smc, sfpe, stpe, spts, sptb, sbet, sdr, sdy⟩ <;> try rfl
    all_goals
      rcases mc with _ | mc <;> rcases fpe with _ | fpe <;> rcases tpe with _ | tpe <;>
        rcases pts with _ | pts <;> rcases ptb with _ | ptb <;> rcases bet with _ | bet <;> rfl
  refine ⟨heq, ?_⟩
  intro d hd
  subst hd
  rw [heq]
  refine ⟨?_, ?_, ?_, ?_, ?_, ?_⟩ <;> intro v hv <;>
    simp [summarySpecMerge, firstSome, hv]

/-- Witness for C3: a trailing P/E present in defaultKeyStatistics
survives the summaryDetail pass untouched. -/
theorem extractFinancialSummary_matches_spec_witness :
    (extractFinancialSummary bothModulesResult).TrailingPE = some ⟨99, "99", ""⟩ :=
  ((extractFinancialSummary_matches_spec bothModulesResult).2
    { emptyFinancialSummary with
        TrailingPE := some ⟨99, "99", ""⟩
        PriceToBook := some ⟨98, "98", ""⟩ } rfl).2.2.1 ⟨99, "99", ""⟩ rfl

/-- C8 (amended): with a non-empty top-level result whose balance sheet
statement array is empty or whose balanceSheetHistory module is absent,
FetchBalanceSheet succeeds with no error; every statement-derived field is
absent, while BookValuePerShare is supplemented from the financialData
module when that module carries it. -/
theorem FetchBalanceSheet_empty_statements_amended (symbol : String)
    (resp : YahooFinancialResponse) (r : QuoteSummaryResult)
    (rest : List QuoteSummaryResult)
    (h : resp.QuoteSummary.Result = r :: rest)
    (hempty : r.BalanceSheetHistory = none ∨
      ∃ m, r.BalanceSheetHistory = some m ∧ m.BalanceSheetStatements = []) :
    FetchBalanceSheet symbol resp =
      ({ emptyBalanceSheet with
          BookValuePerShare := r.FinancialData.bind (fun fd => fd.BookValuePerShare) },
        none) := by
  have hextract : extractBalanceSheet r =
      { emptyBalanceSheet with
          BookValuePerShare := r.FinancialData.bind (fun fd => fd.BookValuePerShare) } := by
    rcases hempty with he | ⟨m, hm, hms⟩
    · rcases hfd : r.FinancialData with _ | fd <;>
        simp [extractBalanceSheet, he, hfd, emptyBalanceSheet]
    · rcases hfd : r.FinancialData with _ | fd <;>
        simp [extractBalanceSheet, hm, hms, hfd, emptyBalanceSheet]
  simp [FetchBalanceSheet, h, hextract]

/-- Multi-module result with an empty balance sheet statement array and a
financialData module carrying book value per share. -/
def emptyStatementsResult : QuoteSummaryResult :=
  { DefaultKeyStatistics := none
    FinancialData :=
      some { emptyFinancialRatios with BookValuePerShare := some ⟨5, "5.00", ""⟩ }
    SummaryDetail := none
    IncomeStatementHistory := none
    BalanceSheetHistory := some ⟨[]⟩
    CashflowStatementHistory := none }

/-- Counterexample to C8 as stated: on this response the fetch succeeds
but the returned record is not all-absent, because BookValuePerShare is
filled from financialData. -/
theorem FetchBalanceSheet_not_all_fields_absent :
    (FetchBalanceSheet "AAPL" ⟨⟨[emptyStatementsResult], none⟩⟩).2 = none ∧
    (FetchBalanceSheet "AAPL" ⟨⟨[emptyStatementsResult], none⟩⟩).1.BookValuePerShare =
      some ⟨5, "5.00", ""⟩ := by
  decide

/-- Witness for C8 (amended) at the same concrete response. -/
theorem FetchBalanceSheet_empty_statements_amended_witness :
    FetchBalanceSheet "AAPL" ⟨⟨[emptyStatementsResult], none⟩⟩ =
      ({ emptyBalanceSheet with BookValuePerShare := some ⟨5, "5.00", ""⟩ }, none) := by
  have h := FetchBalanceSheet_empty_statements_amended "AAPL"
    ⟨⟨[emptyStatementsResult], none⟩⟩ emptyStatementsResult [] rfl
    (Or.inr ⟨⟨[]⟩, rfl, rfl⟩)
  simpa using h

/-- The day-of-era is always below the 400-year cycle length. -/
theorem doeOfDays_lt (days : Int) : doeOfDays days < 146097 := by
  unfold doeOfDays
  omega

/-- Coarse bound on the day-of-year: enough to keep month and day below
two decimal digits. -/
theorem doyOf_le (doe : Nat) (h : doe < 146097) : doyOf doe ≤ 500 := by
  unfold doyOf yoeOf
  omega

set_option maxRecDepth 4000

/-- Month and day of month stay below 100 for every bounded day-of-year. -/
theorem month_day_small : ∀ doy < 501, monthOf doy < 100 ∧ dayOfMonth doy < 100 := by
  decide

/-- pad2 renders exactly two characters below 100. -/
theorem pad2_length (n : Nat) (h : n < 100) : (pad2 n).length = 2 := by
  unfold pad2
  rw [if_pos h]
  rfl

/-- pad4 renders exactly four characters below 10000. -/
theorem pad4_length (n : Nat) (h : n < 10000) : (pad4 n).length = 4 := by
  unfold pad4
  rw [if_pos h]
  rfl

/-- A year of at most four digits renders as exactly four characters. -/
theorem formatYear_length (y : Int) (h0 : 0 ≤ y) (h1 : y ≤ 9999) :
    (formatYear y).length = 4 := by
  unfold formatYear
  rw [if_neg (by omega)]
  exact pad4_length _ (by omega)

/-- The rendered month is below 100. -/
theorem civil_month_lt (days : Int) : (civilFromDays days).2.1 < 100 := by
  show monthOf (doyOf (doeOfDays days)) < 100
  exact (month_day_small _ (by have := doyOf_le _ (doeOfDays_lt days); omega)).1

/-- The rendered day of month is below 100. -/
theorem civil_day_lt (days : Int) : (civilFromDays days).2.2 < 100 := by
  show dayOfMonth (doyOf (doeOfDays days)) < 100
  exact (month_day_small _ (by have := doyOf_le _ (doeOfDays_lt days); omega)).2

/-- Calendar-date keys have exactly 10 characters whenever the civil year
has at most four digits. -/
theorem formatDate_length (ts : Int) (h0 : 0 ≤ yearOf ts) (h1 : yearOf ts ≤ 9999) :
    (formatDate ts).length = 10 := by
  unfold formatDate
  rw [String.length_append, String.length_append, String.length_append,
    String.length_append]
  have h0b : (0 : Int) ≤ (civilFromDays (ts / 86400)).1 := h0
  have h1b : (civilFromDays (ts / 86400)).1 ≤ 9999 := h1
  rw [formatYear_length _ h0b h1b, pad2_length _ (civil_month_lt _),
    pad2_length _ (civil_day_lt _)]
  rfl

/-- Full date-time keys have exactly 19 characters whenever the civil
year has at most four digits. -/
theorem formatDateTime_length (ts : Int) (h0 : 0 ≤ yearOf ts) (h1 : yearOf ts ≤ 9999) :
    (formatDateTime ts).length = 19 := by
  unfold formatDateTime
  have hsod : Int.toNat (ts % 86400) < 86400 := by omega
  rw [String.length_append, String.length_append, String.length_append,
    String.length_append, String.length_append, String.length_append]
  rw [formatDate_length ts h0 h1, pad2_length _ (by omega), pad2_length _ (by omega),
    pad2_length _ (by omega)]
  rfl

/-- Membership in an upsert comes from the old map or is the new binding. -/
theorem mem_upsert {d : List (String × PriceData)} {k : String} {v : PriceData}
    {x : String × PriceData} (h : x ∈ upsert d k v) : x ∈ d ∨ x = (k, v) := by
  induction d with
  | nil => simpa [upsert] using h
  | cons hd tl ih =>
    obtain ⟨k0, v0⟩ := hd
    by_cases hk : k0 = k
    · rw [upsert, if_pos hk] at h
      rcases List.mem_cons.mp h with hx | hx
      · exact Or.inr hx
      · exact Or.inl (List.mem_cons_of_mem _ hx)
    · rw [upsert, if_neg hk] at h
      rcases List.mem_cons.mp h with hx | hx
      · exact Or.inl (by simp [hx])
      · rcases ih hx with hl | hr
        · exact Or.inl (List.mem_cons_of_mem _ hl)
        · exact Or.inr hr

/-- An emitted row certifies the five-array bounds guard. -/
theorem emitRow_some {quote : QuoteBlock} {i : Nat} {row : PriceData}
    (h : emitRow quote i = some row) : inBoundsB quote i = true := by
  by_cases hb : inBoundsB quote i = true
  · exact hb
  · rw [emitRow, if_neg hb] at h
    exact absurd h (by simp)

/-- A suppressed row certifies the guard failed. -/
theorem emitRow_none {quote : QuoteBlock} {i : Nat}
    (h : emitRow quote i = none) : inBoundsB quote i = false := by
  by_cases hb : inBoundsB quote i = true
  · rw [emitRow, if_pos hb] at h
    exact absurd h (by simp)
  · simpa using hb

/-- Every binding reachable by the transform loop either was already in
the accumulator or stems from an in-bounds position of the remaining
timestamps, keyed by that timestamp's formatted key. -/
theorem transformLoop_mem (res : ChartResult) (interval : String) :
    ∀ (tsl : List Int) (i : Nat) (d : List (String × PriceData))
      (x : String × PriceData),
      x ∈ transformLoop res interval i tsl d →
      x ∈ d ∨ ∃ quote qrest, res.Indicators.Quote = quote :: qrest ∧
        ∃ j, ∃ hj : j < tsl.length, inBoundsB quote (i + j) = true ∧
          x.1 = formatTimestampKey interval (tsl.get ⟨j, hj⟩) := by
  intro tsl
  induction tsl with
  | nil => exact fun i d x h => Or.inl h
  | cons ts rest ih =>
    intro i d x h
    rw [transformLoop] at h
    have shift : ∀ (quote : QuoteBlock),
        (∃ j, ∃ hj : j < rest.length, inBoundsB quote (i + 1 + j) = true ∧
          x.1 = formatTimestampKey interval (rest.get ⟨j, hj⟩)) →
        ∃ j, ∃ hj : j < (ts :: rest).length, inBoundsB quote (i + j) = true ∧
          x.1 = formatTimestampKey interval ((ts :: rest).get ⟨j, hj⟩) := by
      rintro quote ⟨j, hj, hb, hx⟩
      refine ⟨j + 1, by simpa using Nat.succ_lt_succ hj, ?_, ?_⟩
      · have harith : i + 1 + j = i + (j + 1) := by omega
        rwa [harith] at hb
      · simpa using hx
    cases hq : res.Indicators.Quote with
    | nil =>
      have hd2 : stepMap res interval i ts d = d := by simp [stepMap, hq]
      rw [hd2] at h
      rcases ih (i + 1) d x h with hl | ⟨q2, qr2, hq2, j, hj, hb, hx⟩
      · exact Or.inl hl
      · rw [hq] at hq2
        exact absurd hq2 (by simp)
    | cons quote qrest =>
      cases hemit : emitRow quote i with
      | none =>
        have hd2 : stepMap res interval i ts d = d := by simp [stepMap, hq, hemit]
        rw [hd2] at h
        rcases ih (i + 1) d x h with hl | ⟨q2, qr2, hq2, j, hj, hb, hx⟩
        · exact Or.inl hl
        · have hq2b : q2 = quote := by
            rw [hq] at hq2
            injection hq2 with h1 h2
            exact h1.symm
          subst hq2b
          exact Or.inr ⟨q2, qrest, rfl, shift q2 ⟨j, hj, hb, hx⟩⟩
      | some row =>
        have hd2 : stepMap res interval i ts d =
            upsert d (formatTimestampKey interval ts) row := by
          simp [stepMap, hq, hemit]
        rw [hd2] at h
        rcases ih (i + 1) (upsert d (formatTimestampKey interval ts) row) x h with
          hl | ⟨q2, qr2, hq2, j, hj, hb, hx⟩
        · rcases mem_upsert hl with hd | hx0
          · exact Or.inl hd
          · refine Or.inr ⟨quote, qrest, rfl, 0, by simp, ?_, ?_⟩
            · simpa using emitRow_some hemit
            · simp [hx0]
        · have hq2b : q2 = quote := by
            rw [hq] at hq2
            injection hq2 with h1 h2
            exact h1.symm
          subst hq2b
          exact Or.inr ⟨q2, qrest, rfl, shift q2 ⟨j, hj, hb, hx⟩⟩

/-- Time-series response with a single timestamp in the civil year 10001
(epoch seconds 253433923200) and populated length-1 parallel arrays. -/
def bigYearResponse : YahooHistoryResponse :=
  ⟨⟨[⟨[253433923200], ⟨[⟨[none], [none], [none], [none], [none]⟩]⟩⟩], none⟩⟩

/-- Counterexample to C4 as stated: for a granularity ending in d, the key
of the record emitted for the year-10001 timestamp has 11 characters, not
10 — Go's year field widens beyond four digits. -/
theorem transformHistoricalData_key_not_ten_chars :
    ¬ (∀ kv ∈ transformHistoricalData bigYearResponse "1d", kv.1.length = 10) := by
  decide

/-- C4 (amended): every key follows the suffix dispatch — calendar date
for granularities ending in d, wk or mo, full date-time otherwise — and
the keys have exactly 10 resp. 19 characters provided every timestamp's
civil year has at most four digits (years of five or more digits widen
the year field). -/
theorem transformHistoricalData_key_format_amended
    (data : YahooHistoryResponse) (interval : String)
    (hy : ∀ res ∈ data.Chart.Result, ∀ ts ∈ res.Timestamp,
      0 ≤ yearOf ts ∧ yearOf ts ≤ 9999) :
    ∀ kv ∈ transformHistoricalData data interval,
      ((hasSuffixB interval "d" || hasSuffixB interval "wk"
          || hasSuffixB interval "mo") = true → kv.1.length = 10) ∧
      ((hasSuffixB interval "d" || hasSuffixB interval "wk"
          || hasSuffixB interval "mo") = false → kv.1.length = 19) := by
  intro kv hkv
  cases hres : data.Chart.Result with
  | nil =>
    simp only [transformHistoricalData, hres] at hkv
    exact absurd hkv (by simp)
  | cons res rest =>
    simp only [transformHistoricalData, hres] at hkv
    rcases transformLoop_mem res interval res.Timestamp 0 [] kv hkv with
      hl | ⟨quote, qrest, hq, j, hj, hb, hx⟩
    · exact absurd hl (by simp)
    · have hts : res.Timestamp.get ⟨j, hj⟩ ∈ res.Timestamp := List.get_mem _ _ _
      have hyb := hy res (by rw [hres]; exact List.mem_cons_self _ _) _ hts
      constructor
      · intro hcond
        rw [hx, formatTimestampKey, if_pos hcond]
        exact formatDate_length _ hyb.1 hyb.2
      · intro hcond
        rw [hx, formatTimestampKey, if_neg (by simp [hcond])]
        exact formatDateTime_length _ hyb.1 hyb.2

/-- Time-series response with one epoch-zero timestamp and populated
length-1 parallel arrays. -/
def smallYearResponse : YahooHistoryResponse :=
  ⟨⟨[⟨[0], ⟨[⟨[none], [none], [none], [none], [none]⟩]⟩⟩], none⟩⟩

/-- Witness for C4 (amended): at the epoch-zero timestamp with a daily
granularity, the emitted key has exactly 10 characters. -/
theorem transformHistoricalData_key_format_amended_witness :
    (("1970-01-01",
      ({ Open := none, High := none, Low := none, Close := none,
         Volume := none } : PriceData)) : String × PriceData).1.length = 10 :=
  (transformHistoricalData_key_format_amended smallYearResponse "1d"
    (by decide) _ (by decide)).1 (by decide)

/-- Number of in-bounds positions among the n loop indices starting at i. -/
def emitCount (quote : QuoteBlock) : Nat → Nat → Nat
  | _, 0 => 0
  | i, Nat.succ n => (if inBoundsB quote i then 1 else 0) + emitCount quote (i + 1) n

/-- Assigning a fresh key grows the map by exactly one entry. -/
theorem upsert_length_fresh {d : List (String × PriceData)} {k : String}
    {v : PriceData} (h : k ∉ d.map Prod.fst) :
    (upsert d k v).length = d.length + 1 := by
  induction d with
  | nil => rfl
  | cons hd tl ih =>
    obtain ⟨k0, v0⟩ := hd
    have hk : k0 ≠ k := fun he => h (by simp [he])
    rw [upsert, if_neg hk]
    simp only [List.length_cons]
    rw [ih (fun hm => h (by simp [hm]))]

/-- Keys after an upsert are old keys or the inserted key. -/
theorem upsert_keys {d : List (String × PriceData)} {k : String} {v : PriceData} :
    ∀ x ∈ (upsert d k v).map Prod.fst, x ∈ d.map Prod.fst ∨ x = k := by
  intro x hx
  rcases List.mem_map.mp hx with ⟨p, hp, rfl⟩
  rcases mem_upsert hp with hd | hpk
  · exact Or.inl (List.mem_map_of_mem _ hd)
  · rw [hpk]
    exact Or.inr rfl

/-- With pairwise distinct keys ahead and no clash with the accumulator,
the loop grows the map by exactly the number of in-bounds positions. -/
theorem transformLoop_length (res : ChartResult) (interval : String)
    (quote : QuoteBlock) (qrest : List QuoteBlock)
    (hq : res.Indicators.Quote = quote :: qrest) :
    ∀ (tsl : List Int) (i : Nat) (d : List (String × PriceData)),
      (∀ ts ∈ tsl, formatTimestampKey interval ts ∉ d.map Prod.fst) →
      (tsl.map (formatTimestampKey interval)).Nodup →
      (transformLoop res interval i tsl d).length =
        d.length + emitCount quote i tsl.length := by
  intro tsl
  induction tsl with
  | nil =>
    intro i d _ _
    simp [transformLoop, emitCount]
  | cons ts rest ih =>
    intro i d hfresh hnodup
    rw [transformLoop]
    rw [List.map_cons] at hnodup
    have hnd := List.nodup_cons.mp hnodup
    cases hemit : emitRow quote i with
    | some row =>
      have hd2 : stepMap res interval i ts d =
          upsert d (formatTimestampKey interval ts) row := by
        simp [stepMap, hq, hemit]
      rw [hd2]
      have hfresh2 : ∀ tsx ∈ rest, formatTimestampKey interval tsx ∉
          (upsert d (formatTimestampKey interval ts) row).map Prod.fst := by
        intro tsx htsx hmem
        rcases upsert_keys _ hmem with hin | heq
        · exact hfresh tsx (by simp [htsx]) hin
        · apply hnd.1
          rw [← heq]
          exact List.mem_map_of_mem _ htsx
      rw [ih (i + 1) _ hfresh2 hnd.2,
        upsert_length_fresh (hfresh ts (by simp))]
      have hb : inBoundsB quote i = true := emitRow_some hemit
      simp [List.length_cons, emitCount, hb]
      omega
    | none =>
      have hd2 : stepMap res interval i ts d = d := by
        simp [stepMap, hq, hemit]
      rw [hd2]
      have hfresh2 : ∀ tsx ∈ rest, formatTimestampKey interval tsx ∉ d.map Prod.fst :=
        fun tsx htsx => hfresh tsx (by simp [htsx])
      rw [ih (i + 1) _ hfresh2 hnd.2]
      have hb : inBoundsB quote i = false := emitRow_none hemit
      simp [List.length_cons, emitCount, hb]

/-- When the bounds guard is equivalent to a single cutoff m, the number
of in-bounds positions among n indices from i is n truncated at the
cutoff. -/
theorem emitCount_min (quote : QuoteBlock) (m : Nat)
    (hm : ∀ k, inBoundsB quote k = decide (k < m)) :
    ∀ (n i : Nat), emitCount quote i n = n - (i + n - m) := by
  intro n
  induction n with
  | zero =>
    intro i
    simp [emitCount]
  | succ n ih =>
    intro i
    rw [emitCount, hm i, ih (i + 1)]
    by_cases hi : i < m <;> simp [hi] <;> omega

/-- When every other array is at least as long as the volume array, the
five-way guard reduces to the volume-array cutoff. -/
theorem inBoundsB_volume_min (quote : QuoteBlock)
    (hO : quote.Volume.length ≤ quote.Open.length)
    (hH : quote.Volume.length ≤ quote.High.length)
    (hL : quote.Volume.length ≤ quote.Low.length)
    (hC : quote.Volume.length ≤ quote.Close.length) :
    ∀ k, inBoundsB quote k = decide (k < quote.Volume.length) := by
  intro k
  unfold inBoundsB
  by_cases hk : k < quote.Volume.length
  · simp [hk, lt_of_lt_of_le hk hO, lt_of_lt_of_le hk hH,
      lt_of_lt_of_le hk hL, lt_of_lt_of_le hk hC]
  · simp [hk]

/-- C5: a record is emitted for position i only when i is within bounds of
all five parallel arrays (silent drop otherwise, the transform is total);
and with a volume array one element shorter than the timestamp array, the
other arrays at least as long, and pairwise distinct keys, exactly one
fewer record than timestamps is emitted. -/
theorem transformHistoricalData_bounds_guard :
    (∀ (data : YahooHistoryResponse) (interval : String) (x : String × PriceData),
      x ∈ transformHistoricalData data interval →
      ∃ res rest, data.Chart.Result = res :: rest ∧
        ∃ quote qrest, res.Indicators.Quote = quote :: qrest ∧
          ∃ i, ∃ hi : i < res.Timestamp.length,
            inBoundsB quote i = true ∧
            x.1 = formatTimestampKey interval (res.Timestamp.get ⟨i, hi⟩)) ∧
    (∀ (data : YahooHistoryResponse) (interval : String)
      (res : ChartResult) (rest : List ChartResult)
      (quote : QuoteBlock) (qrest : List QuoteBlock),
      data.Chart.Result = res :: rest →
      res.Indicators.Quote = quote :: qrest →
      quote.Volume.length + 1 = res.Timestamp.length →
      quote.Volume.length ≤ quote.Open.length →
      quote.Volume.length ≤ quote.High.length →
      quote.Volume.length ≤ quote.Low.length →
      quote.Volume.length ≤ quote.Close.length →
      (res.Timestamp.map (formatTimestampKey interval)).Nodup →
      (transformHistoricalData data interval).length + 1 = res.Timestamp.length) := by
  constructor
  · intro data interval x hx
    cases hres : data.Chart.Result with
    | nil =>
      simp only [transformHistoricalData, hres] at hx
      exact absurd hx (by simp)
    | cons res rest =>
      simp only [transformHistoricalData, hres] at hx
      rcases transformLoop_mem res interval res.Timestamp 0 [] x hx with
        hl | ⟨quote, qrest, hq, j, hj, hb, hkey⟩
      · exact absurd hl (by simp)
      · exact ⟨res, rest, rfl, quote, qrest, hq, j, hj, by simpa using hb, hkey⟩
  · intro data interval res rest quote qrest hres hq hvol hO hH hL hC hnodup
    simp only [transformHistoricalData, hres]
    rw [transformLoop_length res interval quote qrest hq res.Timestamp 0 []
      (by simp) hnodup]
    rw [emitCount_min quote quote.Volume.length
      (inBoundsB_volume_min quote hO hH hL hC) res.Timestamp.length 0]
    simp only [List.length_nil, Nat.zero_add]
    omega

/-- Time-series response with two timestamps, a volume array one element
short, and the other four arrays fully populated. -/
def shortVolumeResponse : YahooHistoryResponse :=
  ⟨⟨[⟨[0, 86400],
      ⟨[⟨[none, none], [none, none], [none, none], [none, none], [none]⟩]⟩⟩], none⟩⟩

/-- Witness for C5: two timestamps with a length-1 volume array emit
exactly one record. -/
theorem transformHistoricalData_bounds_guard_witness :
    (transformHistoricalData shortVolumeResponse "1d").length + 1 = 2 :=
  transformHistoricalData_bounds_guard.2 shortVolumeResponse "1d"
    ⟨[0, 86400], ⟨[⟨[none, none], [none, none], [none, none], [none, none], [none]⟩]⟩⟩
    [] ⟨[none, none], [none, none], [none, none], [none, none], [none]⟩ []
    rfl rfl rfl (by decide) (by decide) (by decide) (by decide) (by decide)
